import Mathlib

/-!
Verification of the SC6103 UDP RPC client (`src/client/wire_codec.c`,
`src/client/client_main.c`, `src/client/protocol.h`) against its natural-language
specification.  Buffers are shallowly embedded as `List Nat` (one entry per byte);
machine integers are `Nat`/`Int` with explicit modular arithmetic where the C code
truncates.
-/

/-- Result of running one of the C decoders on a finite buffer.
`ok value ret` means the decoder completed while touching only in-bounds bytes,
computed `value`, and its C return value was `ret` (a byte count, or `-1` for
`read_string`'s buffer-too-small failure).  `oob` means the C code dereferenced a
byte at an index at or past the end of the buffer (the C functions perform no
bounds checks, so on a too-short buffer they read past its end; in C this is an
out-of-bounds access, not a reported failure). -/
inductive CRead (α : Type) where
  | ok (value : α) (ret : Int)
  | oob
  deriving DecidableEq, Repr

/-- The 16-byte wire header of `protocol.h` (`Header` struct): `version:u16`,
`opCode:u16`, `requestId:u32`, `flags:u32`, `payloadLen:u32`. -/
structure Header where
  version : Nat
  opCode : Nat
  requestId : Nat
  flags : Nat
  payloadLen : Nat
  deriving DecidableEq, Repr

/-- `write_u16` of `wire_codec.c`: `htons` then `memcpy`, i.e. the two bytes of the
value in big-endian order. -/
def write_u16 (val : Nat) : List Nat :=
  [val / 256 % 256, val % 256]

/-- `write_u32` of `wire_codec.c`: `htonl` then `memcpy`, i.e. the four bytes of the
value in big-endian order. -/
def write_u32 (val : Nat) : List Nat :=
  [val / 16777216 % 256, val / 65536 % 256, val / 256 % 256, val % 256]

/-- The two's-complement bit image of a C `int64_t` as an unsigned 64-bit number:
models the casts `(uint32_t)(val >> 32)` / `(uint32_t)val` in `write_i64`. -/
def i64_bits (val : Int) : Nat :=
  (val % 18446744073709551616).toNat

/-- `write_i64` of `wire_codec.c`: split into two `uint32` halves, high word first,
each written big-endian via `write_u32`. -/
def write_i64 (val : Int) : List Nat :=
  write_u32 (i64_bits val / 4294967296) ++ write_u32 (i64_bits val % 4294967296)

/-- `write_header` of `wire_codec.c`: the five fields written back to back with
`write_u16`/`write_u32`, 16 bytes total. -/
def write_header (h : Header) : List Nat :=
  write_u16 h.version ++ write_u16 h.opCode ++ write_u32 h.requestId ++
    write_u32 h.flags ++ write_u32 h.payloadLen

/-- `write_string` of `wire_codec.c`: `len = strlen(str)`, clamped to `0xFFFF`, then
a `write_u16` length prefix followed by `len` raw bytes (`memcpy`).  The input is
the byte sequence `strlen` would measure. -/
def write_string (str : List Nat) : List Nat :=
  let len := min str.length 65535
  write_u16 len ++ str.take len

/-- `read_u16` of `wire_codec.c`: `memcpy` of 2 bytes then `ntohs`; it
unconditionally reads bytes 0 and 1 and returns 2. -/
def read_u16 (buf : List Nat) : CRead Nat :=
  match buf with
  | b0 :: b1 :: _ => .ok (b0 * 256 + b1) 2
  | _ => .oob

/-- `read_u32` of `wire_codec.c`: `memcpy` of 4 bytes then `ntohl`; it
unconditionally reads bytes 0..3 and returns 4. -/
def read_u32 (buf : List Nat) : CRead Nat :=
  match buf with
  | b0 :: b1 :: b2 :: b3 :: _ => .ok (((b0 * 256 + b1) * 256 + b2) * 256 + b3) 4
  | _ => .oob

/-- Two's-complement reading of an unsigned 64-bit bit pattern as a C `int64_t`:
models `((int64_t)high << 32) | (int64_t)low` in `read_i64`. -/
def toInt64 (u : Nat) : Int :=
  if u < 9223372036854775808 then (u : Int) else (u : Int) - 18446744073709551616

/-- `read_i64` of `wire_codec.c`: two `read_u32` calls (high word first, then the
low word at offset 4), recombined into a signed 64-bit value; returns 8. -/
def read_i64 (buf : List Nat) : CRead Int :=
  match read_u32 buf, read_u32 (buf.drop 4) with
  | .ok high _, .ok low _ => .ok (toInt64 (high * 4294967296 + low)) 8
  | _, _ => .oob

/-- `read_header` of `wire_codec.c`: the five fields read back to back at offsets
0, 2, 4, 8, 12; returns 16.  The C code performs the five reads unconditionally;
`oob` records that some read crossed the end of the buffer. -/
def read_header (buf : List Nat) : CRead Header :=
  match read_u16 buf with
  | .oob => .oob
  | .ok v _ =>
    match read_u16 (buf.drop 2) with
    | .oob => .oob
    | .ok op _ =>
      match read_u32 (buf.drop 4) with
      | .oob => .oob
      | .ok rid _ =>
        match read_u32 (buf.drop 8) with
        | .oob => .oob
        | .ok fl _ =>
          match read_u32 (buf.drop 12) with
          | .oob => .oob
          | .ok pl _ => .ok ⟨v, op, rid, fl, pl⟩ 16

/-- `read_string` of `wire_codec.c`: reads a `u16` length prefix, returns `-1`
("buffer too small") if `len >= max_len` (the caller's *output* capacity) before
touching any payload byte, otherwise `memcpy`s `len` payload bytes from the input
buffer — without checking that the input buffer holds them — and returns
`2 + len`.  On the `-1` path the output is untouched, modelled by the value `[]`. -/
def read_string (buf : List Nat) (max_len : Nat) : CRead (List Nat) :=
  match read_u16 buf with
  | .oob => .oob
  | .ok len _ =>
    if max_len ≤ len then .ok [] (-1)
    else if 2 + len ≤ buf.length then .ok ((buf.drop 2).take len) (2 + (len : Int))
    else .oob

/-- One attempt's worth of transport behaviour inside `udp_invoke` of
`client_main.c`: `sendto` fails (`sendFail`), `select` returns an error
(`selectError`) or 0 (`timeout`), `recvfrom` fails (`recvError`), or a reply
datagram is received (`reply`). -/
inductive TransportEvent where
  | sendFail
  | selectError
  | timeout
  | recvError
  | reply (bytes : List Nat)
  deriving DecidableEq, Repr

/-- The value `udp_invoke` returns to its caller: `received bytes` models a
non-negative `recv_len` together with the received datagram, `failure` models the
single return value `-1`, which the C function uses for *every* failing exit
(select error, recvfrom error, and retries exhausted alike). -/
inductive InvokeOutcome where
  | received (bytes : List Nat)
  | failure
  deriving DecidableEq, Repr

/-- The retry loop body of `udp_invoke` (`for (attempt = 0; attempt <= max_retries;
attempt++)`).  `remaining` counts loop iterations still permitted; the second
component of the result collects, in order, the buffer passed to each `sendto`
call (the loop always sends the same immutable `request`).  A failed `sendto`
falls through to the next attempt; a select error or recvfrom error returns `-1`
at once; a timeout retries; a received reply returns immediately. -/
def udp_invoke_loop (request : List Nat) (trace : Nat → TransportEvent) :
    Nat → Nat → InvokeOutcome × List (List Nat)
  | _, 0 => (.failure, [])
  | attempt, remaining + 1 =>
    match trace attempt with
    | .sendFail =>
      let r := udp_invoke_loop request trace (attempt + 1) remaining
      (r.1, request :: r.2)
    | .selectError => (.failure, [request])
    | .timeout =>
      let r := udp_invoke_loop request trace (attempt + 1) remaining
      (r.1, request :: r.2)
    | .recvError => (.failure, [request])
    | .reply bytes => (.received bytes, [request])

/-- `udp_invoke` of `client_main.c`: runs the retry loop for `max_retries + 1`
iterations starting at attempt 0, returning the outcome and the list of datagrams
handed to `sendto`. -/
def udp_invoke (request : List Nat) (trace : Nat → TransportEvent)
    (max_retries : Nat) : InvokeOutcome × List (List Nat) :=
  udp_invoke_loop request trace 0 (max_retries + 1)

/-- `FLAG_AT_MOST_ONCE` handling shared by every command:
`hdr.flags = at_most_once ? FLAG_AT_MOST_ONCE : 0`. -/
def flag_bits (at_most_once : Bool) : Nat :=
  if at_most_once then 1 else 0

/-- A request datagram as assembled by one of the `cmd_*` functions of
`client_main.c`: the header written at offset 0, the payload bytes written after
it, and the final `offset` value passed to `udp_invoke` as `req_len`. -/
structure Request where
  hdr : Header
  payload : List Nat
  reqLen : Nat
  deriving Repr

/-- The framing invariant of a request datagram: the header's `payloadLen` equals
the number of payload bytes actually written after the 16-byte header, and the
length passed to `udp_invoke` is `16 + payloadLen`, which is also the length of
the assembled datagram `write_header hdr ++ payload`. -/
def Request.wellFramed (r : Request) : Prop :=
  r.hdr.payloadLen = r.payload.length ∧ r.reqLen = 16 + r.payload.length ∧
    (write_header r.hdr ++ r.payload).length = r.reqLen

/-- The fixed day-start timestamp hard-coded in `cmd_query`. -/
def query_day_start : Int := 1728518400000

/-- The fixed day-end timestamp of `cmd_query` (`day_start + 86400000`). -/
def query_day_end : Int := 1728518400000 + 86400000

/-- Request assembly of `cmd_query`: payload `string facility + i64 dayStart +
i64 dayEnd`, `offset` accumulated from the codec return values, header
`⟨PROTOCOL_VERSION, OP_QUERY_AVAIL, reqId, flags, offset - 16⟩`. -/
def build_query (facility : List Nat) (reqId : Nat) (amo : Bool) : Request :=
  let offset := 16 + (write_string facility).length + (write_i64 query_day_start).length
    + (write_i64 query_day_end).length
  ⟨⟨1, 1, reqId, flag_bits amo, offset - 16⟩,
    write_string facility ++ write_i64 query_day_start ++ write_i64 query_day_end,
    offset⟩

/-- Request assembly of `cmd_book`: payload `str facility + str user + i64 start +
i64 end`, opCode `OP_BOOK = 0x0002`. -/
def build_book (facility user : List Nat) (start_ms end_ms : Int) (reqId : Nat)
    (amo : Bool) : Request :=
  let offset := 16 + (write_string facility).length + (write_string user).length
    + (write_i64 start_ms).length + (write_i64 end_ms).length
  ⟨⟨1, 2, reqId, flag_bits amo, offset - 16⟩,
    write_string facility ++ write_string user ++ write_i64 start_ms ++ write_i64 end_ms,
    offset⟩

/-- Request assembly of `cmd_change`: payload `i64 bookingId + u32 offsetMinutes`,
opCode `OP_CHANGE_BOOKING = 0x0003`.  The C code advances `offset` by the
hard-coded constants 8 and 4 rather than the codec return values. -/
def build_change (booking_id : Int) (offset_minutes : Nat) (reqId : Nat)
    (amo : Bool) : Request :=
  let offset := 16 + 8 + 4
  ⟨⟨1, 3, reqId, flag_bits amo, offset - 16⟩,
    write_i64 booking_id ++ write_u32 offset_minutes,
    offset⟩

/-- Request assembly of `cmd_monitor`: payload `str facility + u32 windowSeconds +
u32 callbackPort`, opCode `OP_MONITOR = 0x0004`; the two `u32` writes advance
`offset` by the hard-coded constant 4 each. -/
def build_monitor (facility : List Nat) (duration_seconds callback_port : Nat)
    (reqId : Nat) (amo : Bool) : Request :=
  let offset := 16 + (write_string facility).length + 4 + 4
  ⟨⟨1, 4, reqId, flag_bits amo, offset - 16⟩,
    write_string facility ++ write_u32 duration_seconds ++ write_u32 callback_port,
    offset⟩

/-- Request assembly of `cmd_reset`: payload `str facility + i64 dayStart +
i64 dayEnd`, opCode `OP_CUSTOM_IDEMPOTENT = 0x1001`; the two `i64` writes advance
`offset` by the hard-coded constant 8 each. -/
def build_reset (facility : List Nat) (day_start day_end : Int) (reqId : Nat)
    (amo : Bool) : Request :=
  let offset := 16 + (write_string facility).length + 8 + 8
  ⟨⟨1, 4097, reqId, flag_bits amo, offset - 16⟩,
    write_string facility ++ write_i64 day_start ++ write_i64 day_end,
    offset⟩

/-- Request assembly of `cmd_custom_incr`: payload `str facility`, opCode
`OP_CUSTOM_NON_IDEMPOTENT = 0x1002`. -/
def build_custom_incr (facility : List Nat) (reqId : Nat) (amo : Bool) : Request :=
  let offset := 16 + (write_string facility).length
  ⟨⟨1, 4098, reqId, flag_bits amo, offset - 16⟩,
    write_string facility,
    offset⟩

/-- How `cmd_query` classifies a received response: `serverError` is the generic
`"Server error response"` exit taken whenever the error bit is set in `opCode`
(the error-kind payload is never decoded); `ok count ivs` is the normal exit with
the decoded interval list; `undefinedRead` records that the C parse read bytes
beyond the received data. -/
inductive QueryResult where
  | serverError
  | ok (count : Nat) (intervals : List (Int × Int))
  | undefinedRead
  deriving DecidableEq, Repr

/-- The interval-parsing loop of `cmd_query` (and of the callback branch of
`cmd_monitor`): `count` pairs of `i64`, each read with two `read_i64` calls that
advance the cursor by 8 bytes each. -/
def parse_intervals (buf : List Nat) : Nat → CRead (List (Int × Int))
  | 0 => .ok [] 0
  | n + 1 =>
    match read_i64 buf, read_i64 (buf.drop 8) with
    | .ok s _, .ok e _ =>
      match parse_intervals (buf.drop 16) n with
      | .ok rest consumed => .ok ((s, e) :: rest) (16 + consumed)
      | .oob => .oob
    | _, _ => .oob

/-- The response-handling path of `cmd_query` on the received datagram:
`read_header`, then the error-bit test `resp_hdr.opCode & OP_ERROR_MASK`
(`0x8000 = 32768`), then `u16 count` at offset 16 followed by `count` interval
pairs from offset 18.  No field of the header other than `opCode` is inspected
(in particular the version is never checked). -/
def cmd_query_classify (resp : List Nat) : QueryResult :=
  match read_header resp with
  | .oob => .undefinedRead
  | .ok hdr _ =>
    if hdr.opCode &&& 32768 ≠ 0 then .serverError
    else
      match read_u16 (resp.drop 16) with
      | .oob => .undefinedRead
      | .ok count _ =>
        match parse_intervals (resp.drop 18) count with
        | .oob => .undefinedRead
        | .ok ivs _ => .ok count ivs

theorem write_u16_length (v : Nat) : (write_u16 v).length = 2 := rfl

theorem write_u32_length (v : Nat) : (write_u32 v).length = 4 := rfl

theorem write_i64_length (v : Int) : (write_i64 v).length = 8 := rfl

theorem write_header_length (h : Header) : (write_header h).length = 16 := rfl

theorem write_string_length (s : List Nat) :
    (write_string s).length = 2 + min s.length 65535 := by
  simp [write_string, write_u16]
  omega

theorem i64_bits_lt (v : Int) : i64_bits v < 18446744073709551616 := by
  simp only [i64_bits]
  omega

theorem read_u16_append (v : Nat) (rest : List Nat) (hv : v < 65536) :
    read_u16 (write_u16 v ++ rest) = .ok v 2 := by
  simp [read_u16, write_u16]
  omega

theorem read_u32_append (v : Nat) (rest : List Nat) (hv : v < 4294967296) :
    read_u32 (write_u32 v ++ rest) = .ok v 4 := by
  simp [read_u32, write_u32]
  omega

theorem toInt64_i64_bits (v : Int) (h1 : -9223372036854775808 ≤ v)
    (h2 : v < 9223372036854775808) : toInt64 (i64_bits v) = v := by
  simp only [toInt64, i64_bits]
  split <;> omega

theorem read_i64_append (v : Int) (rest : List Nat)
    (h1 : -9223372036854775808 ≤ v) (h2 : v < 9223372036854775808) :
    read_i64 (write_i64 v ++ rest) = .ok v 8 := by
  have hb := i64_bits_lt v
  have e1 : read_u32 (write_i64 v ++ rest) = .ok (i64_bits v / 4294967296) 4 := by
    rw [write_i64, List.append_assoc]
    exact read_u32_append _ _ (by omega)
  have e2 : (write_i64 v ++ rest).drop 4 = write_u32 (i64_bits v % 4294967296) ++ rest := by
    rw [write_i64, List.append_assoc]
    exact List.drop_left' (write_u32_length _)
  rw [read_i64, e1, e2, read_u32_append _ _ (by omega)]
  show CRead.ok (toInt64 (i64_bits v / 4294967296 * 4294967296 + i64_bits v % 4294967296)) 8 =
    CRead.ok v 8
  have e3 : i64_bits v / 4294967296 * 4294967296 + i64_bits v % 4294967296 = i64_bits v :=
    Nat.div_add_mod' _ _
  rw [e3, toInt64_i64_bits v h1 h2]

theorem read_header_append (h : Header) (rest : List Nat)
    (hv : h.version < 65536) (hop : h.opCode < 65536) (hr : h.requestId < 4294967296)
    (hf : h.flags < 4294967296) (hp : h.payloadLen < 4294967296) :
    read_header (write_header h ++ rest) = .ok h 16 := by
  obtain ⟨v, op, rid, fl, pl⟩ := h
  dsimp only at hv hop hr hf hp
  simp only [write_header, write_u16, write_u32, List.cons_append, List.nil_append]
  simp [read_header, read_u16, read_u32, Header.mk.injEq]
  omega

theorem read_string_append (s : List Nat) (rest : List Nat) (max_len : Nat)
    (hlen : s.length ≤ 65535) (hmax : s.length < max_len) :
    read_string (write_string s ++ rest) max_len = .ok s (2 + (s.length : Int)) := by
  have e0 : write_string s ++ rest = write_u16 s.length ++ (s ++ rest) := by
    rw [write_string]
    have hmin : min s.length 65535 = s.length := by omega
    rw [hmin, List.take_length, List.append_assoc]
  rw [e0, read_string, read_u16_append s.length _ (by omega)]
  show (if max_len ≤ s.length then CRead.ok [] (-1)
    else if 2 + s.length ≤ (write_u16 s.length ++ (s ++ rest)).length then
      CRead.ok (((write_u16 s.length ++ (s ++ rest)).drop 2).take s.length)
        (2 + (s.length : Int))
    else CRead.oob) = CRead.ok s (2 + (s.length : Int))
  have hle : 2 + s.length ≤ (write_u16 s.length ++ (s ++ rest)).length := by
    simp [write_u16]
    omega
  rw [if_neg (by omega), if_pos hle, List.drop_left' (write_u16_length _),
    List.take_left]

theorem read_u16_short (buf : List Nat) (h : buf.length < 2) :
    read_u16 buf = CRead.oob := by
  match buf, h with
  | [], _ => rfl
  | [_], _ => rfl

theorem read_u32_short (buf : List Nat) (h : buf.length < 4) :
    read_u32 buf = CRead.oob := by
  match buf, h with
  | [], _ => rfl
  | [_], _ => rfl
  | [_, _], _ => rfl
  | [_, _, _], _ => rfl

theorem read_i64_short (buf : List Nat) (h : buf.length < 8) :
    read_i64 buf = CRead.oob := by
  rw [read_i64]
  rcases Nat.lt_or_ge buf.length 4 with h4 | h4
  · rw [read_u32_short buf h4]
  · have hd : (buf.drop 4).length < 4 := by
      simp [List.length_drop]
      omega
    rw [read_u32_short _ hd]
    cases read_u32 buf <;> rfl

theorem read_header_short (buf : List Nat) (h : buf.length < 16) :
    read_header buf = CRead.oob := by
  rw [read_header]
  rcases Nat.lt_or_ge buf.length 2 with h2 | h2
  · rw [read_u16_short buf h2]
  cases e1 : read_u16 buf with
  | oob => rfl
  | ok v r =>
    rcases Nat.lt_or_ge buf.length 4 with h4 | h4
    · rw [read_u16_short _ (by simp [List.length_drop]; omega)]
    cases e2 : read_u16 (buf.drop 2) with
    | oob => rfl
    | ok op r2 =>
      rcases Nat.lt_or_ge buf.length 8 with h8 | h8
      · rw [read_u32_short _ (by simp [List.length_drop]; omega)]
      cases e3 : read_u32 (buf.drop 4) with
      | oob => rfl
      | ok rid r3 =>
        rcases Nat.lt_or_ge buf.length 12 with h12 | h12
        · rw [read_u32_short _ (by simp [List.length_drop]; omega)]
        cases e4 : read_u32 (buf.drop 8) with
        | oob => rfl
        | ok fl r4 =>
          rw [read_u32_short _ (by simp [List.length_drop]; omega)]

theorem read_string_fail (buf : List Nat) (len max_len : Nat)
    (e : read_u16 buf = CRead.ok len 2) (h : max_len ≤ len) :
    read_string buf max_len = CRead.ok [] (-1) := by
  simp only [read_string, e]
  rw [if_pos h]

theorem read_string_short (buf : List Nat) (len max_len : Nat)
    (e : read_u16 buf = CRead.ok len 2) (h1 : len < max_len) (h2 : buf.length < 2 + len) :
    read_string buf max_len = CRead.oob := by
  simp only [read_string, e]
  rw [if_neg (by omega), if_neg (by omega)]

theorem cmd_query_classify_append (h : Header) (p : List Nat)
    (hv : h.version < 65536) (hop : h.opCode < 65536) (hr : h.requestId < 4294967296)
    (hf : h.flags < 4294967296) (hp : h.payloadLen < 4294967296) :
    cmd_query_classify (write_header h ++ p) =
      if h.opCode &&& 32768 ≠ 0 then QueryResult.serverError
      else
        match read_u16 p with
        | .oob => QueryResult.undefinedRead
        | .ok count _ =>
          match parse_intervals (p.drop 2) count with
          | .oob => QueryResult.undefinedRead
          | .ok ivs _ => QueryResult.ok count ivs := by
  have hd16 : (write_header h ++ p).drop 16 = p := List.drop_left' (write_header_length h)
  have hd18 : (write_header h ++ p).drop 18 = p.drop 2 := by
    have h2 := List.drop_drop 2 16 (write_header h ++ p)
    rw [hd16] at h2
    rw [← h2]
  simp only [cmd_query_classify, read_header_append h p hv hop hr hf hp, hd16, hd18]

theorem udp_invoke_loop_timeout (request : List Nat) (trace : Nat → TransportEvent)
    (h : ∀ n, trace n = TransportEvent.timeout) :
    ∀ (k a : Nat),
      udp_invoke_loop request trace a k = (InvokeOutcome.failure, List.replicate k request) := by
  intro k
  induction k with
  | zero => intro a; rfl
  | succ n ih =>
    intro a
    simp only [udp_invoke_loop, h a, ih (a + 1), List.replicate_succ]

theorem udp_invoke_loop_sends (request : List Nat) (trace : Nat → TransportEvent) :
    ∀ (k a : Nat), (udp_invoke_loop request trace a k).2 =
      List.replicate (udp_invoke_loop request trace a k).2.length request := by
  intro k
  induction k with
  | zero => intro a; rfl
  | succ n ih =>
    intro a
    cases he : trace a
    case sendFail =>
      simp only [udp_invoke_loop, he, List.length_cons, List.replicate_succ]
      exact congrArg (List.cons request) (ih (a + 1))
    case selectError => simp [udp_invoke_loop, he]
    case timeout =>
      simp only [udp_invoke_loop, he, List.length_cons, List.replicate_succ]
      exact congrArg (List.cons request) (ih (a + 1))
    case recvError => simp [udp_invoke_loop, he]
    case reply => simp [udp_invoke_loop, he]

theorem udp_invoke_reply0 (request bytes : List Nat) (trace : Nat → TransportEvent)
    (r : Nat) (h0 : trace 0 = TransportEvent.reply bytes) :
    udp_invoke request trace r = (InvokeOutcome.received bytes, [request]) := by
  rw [udp_invoke]
  simp only [udp_invoke_loop, h0]

theorem udp_invoke_selectError0 (request : List Nat) (trace : Nat → TransportEvent)
    (r : Nat) (h0 : trace 0 = TransportEvent.selectError) :
    udp_invoke request trace r = (InvokeOutcome.failure, [request]) := by
  rw [udp_invoke]
  simp only [udp_invoke_loop, h0]

/-- Claim C1: for every request byte sequence, timeout, and retry budget `r ≥ 0`, if the
transport times out on every attempt (`select` returns 0 each time), then `udp_invoke`
performs exactly `r + 1` send attempts and returns the failure result (`-1` in C,
modelled as `InvokeOutcome.failure`). -/
theorem C1_retry_bound (request : List Nat) (trace : Nat → TransportEvent) (r : Nat)
    (h : ∀ n, trace n = TransportEvent.timeout) :
    (udp_invoke request trace r).1 = InvokeOutcome.failure ∧
    (udp_invoke request trace r).2.length = r + 1 := by
  rw [udp_invoke, udp_invoke_loop_timeout request trace h (r + 1) 0]
  simp

/-- Witness for C1 at `request = [1, 2, 3]`, an always-timeout trace, `r = 2`. -/
theorem C1_retry_bound_witness :
    (∀ n : Nat, (fun _ : Nat => TransportEvent.timeout) n = TransportEvent.timeout) ∧
    (udp_invoke [1, 2, 3] (fun _ => TransportEvent.timeout) 2).1 = InvokeOutcome.failure ∧
    (udp_invoke [1, 2, 3] (fun _ => TransportEvent.timeout) 2).2.length = 2 + 1 :=
  ⟨fun _ => rfl, C1_retry_bound [1, 2, 3] (fun _ => TransportEvent.timeout) 2 fun _ => rfl⟩

/-- Claim C3: for every header `h` whose fields are in the range of their C types,
`write_header` produces exactly 16 bytes, each integer field big-endian with no
padding, and `read_header` decodes those bytes back to `h`. -/
theorem C3_header_roundtrip (h : Header) (hv : h.version < 65536) (hop : h.opCode < 65536)
    (hr : h.requestId < 4294967296) (hf : h.flags < 4294967296)
    (hp : h.payloadLen < 4294967296) :
    (write_header h).length = 16 ∧
    write_header h = [h.version / 256 % 256, h.version % 256,
      h.opCode / 256 % 256, h.opCode % 256,
      h.requestId / 16777216 % 256, h.requestId / 65536 % 256, h.requestId / 256 % 256,
      h.requestId % 256,
      h.flags / 16777216 % 256, h.flags / 65536 % 256, h.flags / 256 % 256, h.flags % 256,
      h.payloadLen / 16777216 % 256, h.payloadLen / 65536 % 256, h.payloadLen / 256 % 256,
      h.payloadLen % 256] ∧
    read_header (write_header h) = CRead.ok h 16 := by
  refine ⟨write_header_length h, rfl, ?_⟩
  simpa using read_header_append h [] hv hop hr hf hp

/-- Witness for C3 at the header `⟨1, 2, 3, 4, 5⟩`. -/
theorem C3_header_roundtrip_witness :
    (1 : Nat) < 65536 ∧ (2 : Nat) < 65536 ∧ (3 : Nat) < 4294967296 ∧
    (4 : Nat) < 4294967296 ∧ (5 : Nat) < 4294967296 ∧
    (write_header ⟨1, 2, 3, 4, 5⟩).length = 16 ∧
    read_header (write_header ⟨1, 2, 3, 4, 5⟩) = CRead.ok ⟨1, 2, 3, 4, 5⟩ 16 :=
  ⟨by decide, by decide, by decide, by decide, by decide,
    (C3_header_roundtrip ⟨1, 2, 3, 4, 5⟩ (by decide) (by decide) (by decide) (by decide)
      (by decide)).1,
    (C3_header_roundtrip ⟨1, 2, 3, 4, 5⟩ (by decide) (by decide) (by decide) (by decide)
      (by decide)).2.2⟩

/-- Claim C4: every wire field type round-trips: `read_u16 ∘ write_u16` and
`read_u32 ∘ write_u32` are the identity on in-range values, `read_i64 ∘ write_i64` is
the identity on all 64-bit values including zero and negatives (two big-endian `u32`
halves, high word first), and for every string of length at most 65535 and below the
output capacity, `read_string ∘ write_string` returns the string with both sides
reporting consumed length `2 + length`. -/
theorem C4_field_roundtrips :
    (∀ v : Nat, v < 65536 → read_u16 (write_u16 v) = CRead.ok v 2) ∧
    (∀ v : Nat, v < 4294967296 → read_u32 (write_u32 v) = CRead.ok v 4) ∧
    (∀ v : Int, -9223372036854775808 ≤ v → v < 9223372036854775808 →
      read_i64 (write_i64 v) = CRead.ok v 8) ∧
    (∀ (s : List Nat) (max_len : Nat), s.length ≤ 65535 → s.length < max_len →
      read_string (write_string s) max_len = CRead.ok s (2 + (s.length : Int)) ∧
      (write_string s).length = 2 + s.length) := by
  refine ⟨?_, ?_, ?_, ?_⟩
  · intro v hv
    simpa using read_u16_append v [] hv
  · intro v hv
    simpa using read_u32_append v [] hv
  · intro v h1 h2
    simpa using read_i64_append v [] h1 h2
  · intro s max_len h1 h2
    refine ⟨?_, ?_⟩
    · simpa using read_string_append s [] max_len h1 h2
    · rw [write_string_length]
      omega

/-- Witness for C4 at `513 : u16`, `4294967295 : u32`, `-5 : i64`, string `[104, 105]`. -/
theorem C4_field_roundtrips_witness :
    read_u16 (write_u16 513) = CRead.ok 513 2 ∧
    read_u32 (write_u32 4294967295) = CRead.ok 4294967295 4 ∧
    read_i64 (write_i64 (-5)) = CRead.ok (-5) 8 ∧
    read_string (write_string [104, 105]) 10 = CRead.ok [104, 105] (2 + (2 : Int)) :=
  ⟨C4_field_roundtrips.1 513 (by decide),
    C4_field_roundtrips.2.1 4294967295 (by decide),
    C4_field_roundtrips.2.2.1 (-5) (by decide) (by decide),
    (C4_field_roundtrips.2.2.2 [104, 105] 10 (by decide) (by decide)).1⟩

/-- Claim C8: for every input string, `write_string` encodes a length prefix equal to
`min(length, 65535)` followed by that many bytes of the string, writing
`2 + min(length, 65535)` bytes in total; over-long strings are silently truncated
(the prefix decodes back to the clamped length), and no error is ever reported. -/
theorem C8_write_string_clamp (s : List Nat) :
    write_string s = write_u16 (min s.length 65535) ++ s.take 65535 ∧
    (write_string s).length = 2 + min s.length 65535 ∧
    read_u16 (write_string s) = CRead.ok (min s.length 65535) 2 := by
  have ht : s.take (min s.length 65535) = s.take 65535 := by
    rcases Nat.le_total s.length 65535 with h | h
    · rw [min_eq_left h, List.take_length, List.take_of_length_le h]
    · rw [min_eq_right h]
  refine ⟨?_, write_string_length s, ?_⟩
  · show write_u16 (min s.length 65535) ++ s.take (min s.length 65535) = _
    rw [ht]
  · show read_u16 (write_u16 (min s.length 65535) ++ s.take (min s.length 65535)) = _
    exact read_u16_append _ _ (by omega)

/-- Claim C9: within one `udp_invoke` call, the datagram handed to `sendto` is
byte-identical on every attempt — the list of sent buffers is a replication of the
one request buffer, which the retry loop never modifies. -/
theorem C9_retry_identity (request : List Nat) (trace : Nat → TransportEvent) (r : Nat) :
    (udp_invoke request trace r).2 =
      List.replicate (udp_invoke request trace r).2.length request :=
  udp_invoke_loop_sends request trace (r + 1) 0

/-- Claim C10: every request datagram built by an operation command (query, book,
change, monitor, reset, custom-incr) is well framed: the header's `payloadLen` equals
the number of payload bytes written after the 16-byte header, and the length passed to
`udp_invoke` equals `16 + payloadLen`, which is the assembled datagram's length. -/
theorem C10_framing (facility user : List Nat) (reqId : Nat) (amo : Bool)
    (start_ms end_ms booking_id day_start day_end : Int)
    (offset_minutes duration_seconds callback_port : Nat) :
    (build_query facility reqId amo).wellFramed ∧
    (build_book facility user start_ms end_ms reqId amo).wellFramed ∧
    (build_change booking_id offset_minutes reqId amo).wellFramed ∧
    (build_monitor facility duration_seconds callback_port reqId amo).wellFramed ∧
    (build_reset facility day_start day_end reqId amo).wellFramed ∧
    (build_custom_incr facility reqId amo).wellFramed := by
  refine ⟨?_, ?_, ?_, ?_, ?_, ?_⟩ <;>
    simp [Request.wellFramed, build_query, build_book, build_change, build_monitor,
      build_reset, build_custom_incr, write_header_length, write_i64_length,
      write_u32_length, write_string_length, write_u16_length, write_string,
      write_i64, write_u32, write_u16] <;>
    omega

/-- Claim C2 counterexample: `read_header` applied to a 10-byte buffer (shorter than the
16 bytes a header requires) reads past the end of the buffer (`CRead.oob`) instead of
reporting a typed failure, and `read_u16` does the same on a 1-byte buffer; the C
decoders have no failure return for a truncated input at all. -/
theorem C2_counterexample :
    read_header [0, 0, 0, 0, 0, 0, 0, 0, 0, 0] = CRead.oob ∧
    read_u16 [7] = CRead.oob :=
  ⟨rfl, rfl⟩

/-- Claim C2 amended: the fixed-size decoders perform no bounds check — on a buffer
shorter than the 2/4/8/16 bytes they need they read past its end without reporting any
failure, and `read_string` reads past the end when the buffer lacks the declared
payload bytes; the only typed failure is `read_string`'s `-1`, returned (before any
payload byte is read) when the declared length is at least the caller's output
capacity. -/
theorem C2_amended_truncation :
    (∀ buf : List Nat, buf.length < 2 → read_u16 buf = CRead.oob) ∧
    (∀ buf : List Nat, buf.length < 4 → read_u32 buf = CRead.oob) ∧
    (∀ buf : List Nat, buf.length < 8 → read_i64 buf = CRead.oob) ∧
    (∀ buf : List Nat, buf.length < 16 → read_header buf = CRead.oob) ∧
    (∀ (buf : List Nat) (len max_len : Nat), read_u16 buf = CRead.ok len 2 →
      max_len ≤ len → read_string buf max_len = CRead.ok [] (-1)) ∧
    (∀ (buf : List Nat) (len max_len : Nat), read_u16 buf = CRead.ok len 2 →
      len < max_len → buf.length < 2 + len → read_string buf max_len = CRead.oob) :=
  ⟨read_u16_short, read_u32_short, read_i64_short, read_header_short,
    read_string_fail, read_string_short⟩

/-- Witness for the amended C2 at concrete short buffers. -/
theorem C2_amended_truncation_witness :
    read_u16 [5] = CRead.oob ∧ read_u32 [1, 2, 3] = CRead.oob ∧
    read_i64 [1, 2, 3, 4, 5] = CRead.oob ∧
    read_header [1, 2, 3] = CRead.oob ∧
    read_string [0, 3, 65] 2 = CRead.ok [] (-1) ∧
    read_string [0, 3, 65] 10 = CRead.oob :=
  ⟨C2_amended_truncation.1 [5] (by decide),
    C2_amended_truncation.2.1 [1, 2, 3] (by decide),
    C2_amended_truncation.2.2.1 [1, 2, 3, 4, 5] (by decide),
    C2_amended_truncation.2.2.2.1 [1, 2, 3] (by decide),
    C2_amended_truncation.2.2.2.2.1 [0, 3, 65] 3 2 (by decide) (by decide),
    C2_amended_truncation.2.2.2.2.2 [0, 3, 65] 3 10 (by decide) (by decide) (by decide)⟩

/-- Claim C5 counterexample: an error response whose payload carries error kind 1
(`ERR_CONFLICT`) and one carrying kind 2 (`ERR_NOT_FOUND`) are classified identically,
both as the generic `serverError` outcome: the client never decodes the `u16` error
kind, so no Conflict-specific outcome exists. -/
theorem C5_counterexample :
    cmd_query_classify (write_header ⟨1, 32769, 7, 0, 2⟩ ++ write_u16 1) =
        QueryResult.serverError ∧
    cmd_query_classify (write_header ⟨1, 32769, 7, 0, 2⟩ ++ write_u16 2) =
        QueryResult.serverError := by
  constructor <;> decide

/-- Claim C5 amended: a response with the error bit (`0x8000`) set in `opCode` is
classified as the generic server-error outcome regardless of the error kind in its
payload (the kind is never decoded), and any received reply terminates `udp_invoke`
at once — an error response is never retried. -/
theorem C5_amended (h : Header) (p request bytes : List Nat)
    (trace : Nat → TransportEvent) (r : Nat)
    (hv : h.version < 65536) (hop : h.opCode < 65536) (hr : h.requestId < 4294967296)
    (hf : h.flags < 4294967296) (hp : h.payloadLen < 4294967296)
    (he : h.opCode &&& 32768 ≠ 0) (h0 : trace 0 = TransportEvent.reply bytes) :
    cmd_query_classify (write_header h ++ p) = QueryResult.serverError ∧
    udp_invoke request trace r = (InvokeOutcome.received bytes, [request]) := by
  refine ⟨?_, udp_invoke_reply0 request bytes trace r h0⟩
  rw [cmd_query_classify_append h p hv hop hr hf hp, if_pos he]

/-- Witness for the amended C5 at a concrete error response and reply trace. -/
theorem C5_amended_witness :
    cmd_query_classify (write_header ⟨1, 32770, 9, 0, 2⟩ ++ write_u16 1) =
        QueryResult.serverError ∧
    udp_invoke [1] (fun _ => TransportEvent.reply [2]) 3 =
      (InvokeOutcome.received [2], [[1]]) :=
  C5_amended ⟨1, 32770, 9, 0, 2⟩ (write_u16 1) [1] [2]
    (fun _ => TransportEvent.reply [2]) 3
    (by decide) (by decide) (by decide) (by decide) (by decide) (by decide) rfl

/-- Claim C6 counterexample: with retry budget 2, a transport that always times out
(retries exhausted) and one that fails hard in `select` on the first attempt make
`udp_invoke` return the very same value (`-1` in C): the caller cannot distinguish the
two outcomes from the result. -/
theorem C6_counterexample :
    (udp_invoke [1] (fun _ => TransportEvent.timeout) 2).1 =
      (udp_invoke [1] (fun _ => TransportEvent.selectError) 2).1 := by
  decide

/-- Claim C6 amended: retries-exhausted and a hard `select` error both surface to the
caller as the same failure value (`-1`), so they are not distinguishable by the
result; they differ only in behaviour — a hard error aborts after a single send while
an always-timing-out transport consumes the full budget of `r + 1` sends. -/
theorem C6_amended (request : List Nat) (t1 t2 : Nat → TransportEvent) (r : Nat)
    (h1 : ∀ n, t1 n = TransportEvent.timeout) (h2 : t2 0 = TransportEvent.selectError) :
    (udp_invoke request t1 r).1 = InvokeOutcome.failure ∧
    (udp_invoke request t2 r).1 = InvokeOutcome.failure ∧
    (udp_invoke request t1 r).1 = (udp_invoke request t2 r).1 ∧
    (udp_invoke request t1 r).2.length = r + 1 ∧
    (udp_invoke request t2 r).2.length = 1 := by
  have e1 : udp_invoke request t1 r = (InvokeOutcome.failure, List.replicate (r + 1) request) := by
    rw [udp_invoke]
    exact udp_invoke_loop_timeout request t1 h1 (r + 1) 0
  have e2 := udp_invoke_selectError0 request t2 r h2
  rw [e1, e2]
  simp

/-- Witness for the amended C6 at concrete traces and budget 2. -/
theorem C6_amended_witness :
    (udp_invoke [9] (fun _ => TransportEvent.timeout) 2).1 = InvokeOutcome.failure ∧
    (udp_invoke [9] (fun _ => TransportEvent.selectError) 2).1 = InvokeOutcome.failure ∧
    (udp_invoke [9] (fun _ => TransportEvent.timeout) 2).1 =
      (udp_invoke [9] (fun _ => TransportEvent.selectError) 2).1 ∧
    (udp_invoke [9] (fun _ => TransportEvent.timeout) 2).2.length = 2 + 1 ∧
    (udp_invoke [9] (fun _ => TransportEvent.selectError) 2).2.length = 1 :=
  C6_amended [9] (fun _ => TransportEvent.timeout) (fun _ => TransportEvent.selectError) 2
    (fun _ => rfl) rfl

/-- Claim C7 counterexample: a response whose header version is 42 (not the supported
constant 1) is not rejected: `cmd_query`'s receive path interprets its payload
normally, decoding zero intervals. -/
theorem C7_counterexample :
    cmd_query_classify (write_header ⟨42, 1, 7, 0, 2⟩ ++ write_u16 0) =
      QueryResult.ok 0 [] := by
  decide

/-- Claim C7 amended: the client stamps `version = PROTOCOL_VERSION = 1` on every
request it builds, but the receive path never validates the version of a received
message: classification of a response is independent of its header's version field,
so a version other than 1 is interpreted exactly like version 1. -/
theorem C7_amended (facility user : List Nat) (reqId : Nat) (amo : Bool)
    (start_ms end_ms booking_id day_start day_end : Int)
    (offset_minutes duration_seconds callback_port : Nat)
    (op rid fl pl v1 v2 : Nat) (p : List Nat)
    (hop : op < 65536) (hr : rid < 4294967296) (hf : fl < 4294967296)
    (hp : pl < 4294967296) (hv1 : v1 < 65536) (hv2 : v2 < 65536) :
    (build_query facility reqId amo).hdr.version = 1 ∧
    (build_book facility user start_ms end_ms reqId amo).hdr.version = 1 ∧
    (build_change booking_id offset_minutes reqId amo).hdr.version = 1 ∧
    (build_monitor facility duration_seconds callback_port reqId amo).hdr.version = 1 ∧
    (build_reset facility day_start day_end reqId amo).hdr.version = 1 ∧
    (build_custom_incr facility reqId amo).hdr.version = 1 ∧
    cmd_query_classify (write_header ⟨v1, op, rid, fl, pl⟩ ++ p) =
      cmd_query_classify (write_header ⟨v2, op, rid, fl, pl⟩ ++ p) := by
  refine ⟨rfl, rfl, rfl, rfl, rfl, rfl, ?_⟩
  rw [cmd_query_classify_append ⟨v1, op, rid, fl, pl⟩ p hv1 hop hr hf hp,
    cmd_query_classify_append ⟨v2, op, rid, fl, pl⟩ p hv2 hop hr hf hp]

/-- Witness for the amended C7 at concrete arguments, comparing versions 42 and 1. -/
theorem C7_amended_witness :
    (build_query [65] 7 false).hdr.version = 1 ∧
    (build_book [65] [66] 10 20 7 false).hdr.version = 1 ∧
    (build_change 1 60 7 false).hdr.version = 1 ∧
    (build_monitor [65] 30 10000 7 false).hdr.version = 1 ∧
    (build_reset [65] 0 1 7 false).hdr.version = 1 ∧
    (build_custom_incr [65] 7 false).hdr.version = 1 ∧
    cmd_query_classify (write_header ⟨42, 1, 7, 0, 2⟩ ++ write_u16 0) =
      cmd_query_classify (write_header ⟨1, 1, 7, 0, 2⟩ ++ write_u16 0) :=
  C7_amended [65] [66] 7 false 10 20 1 0 1 60 30 10000 1 7 0 2 42 1 (write_u16 0)
    (by decide) (by decide) (by decide) (by decide) (by decide) (by decide)
